import Mathlib

/-!
Verification of `backend/server.c`, the single-connection RDMA server.

A shallow embedding of the functions of the server.  Conventions of the embedding:

* Compile-time constants and `sizeof(struct msg)` come from `common.h`, which is not among the
  sources; they are the fields of `Config`.  `DATA_SIZE` and `BLOCK_SIZE` are `int` constants:
  arithmetic on them is C `int` arithmetic, and an operation whose result does not fit in an
  `int` has no result (`int_result`).
* The registration helper `rdma_buffer_register` of `common.h`, the handles the transport
  returns, the addresses `malloc` returns and the results of the destroy calls are the fields
  of `Env`.
* Pointers are `Option`s: `none` is `NULL` for a pointer variable, and an unset value for a
  pointer field of a freshly allocated block.
* Every call into the transport library that returns is appended to `ServerState.trace` with
  the arguments the code passes, every `error(...)` line to `ServerState.log`; `info`, `debug`
  and the printing helpers are not modelled.
* A run that cannot go on ends in a `Halt`, which keeps the state reached: `Stop.segfault n`
  when line `n` of `server.c` dereferences a `NULL` or unset pointer, `Stop.blocked` when a
  completion wait can never be served.  From the start state the only handles that can be
  unset when a function runs are those of the resource block after the `NULL` guard of
  `setup_client_resources`, met next by `post_recv_hello`, and the region block, which the
  connect-request handler allocates and never fills.  Other library calls are taken to
  succeed (`HANDLE` and `HANDLE_NZ` never trip).
* The message offset is a 64-bit unsigned value and wraps explicitly.
-/

namespace RdmaServer

/-! ## Constants -/

/-- Constants of `common.h` used by `server.c`. -/
structure Config where
  DATA_SIZE : Nat
  BLOCK_SIZE : Nat
  CQ_CAPACITY : Nat
  MAX_SGE : Nat
  MAX_WR : Nat
  MSG_SIZE : Nat

/-- Access flag `IBV_ACCESS_LOCAL_WRITE` of libibverbs. -/
def IBV_ACCESS_LOCAL_WRITE : Nat := 1
/-- Access flag `IBV_ACCESS_REMOTE_WRITE` of libibverbs. -/
def IBV_ACCESS_REMOTE_WRITE : Nat := 2
/-- Access flag `IBV_ACCESS_REMOTE_READ` of libibverbs. -/
def IBV_ACCESS_REMOTE_READ : Nat := 4
/-- Work-request opcode `IBV_WR_SEND` of libibverbs. -/
def IBV_WR_SEND : Nat := 2
/-- Send flag `IBV_SEND_SIGNALED` of libibverbs. -/
def IBV_SEND_SIGNALED : Nat := 2
/-- Queue-pair type `IBV_QPT_RC` of libibverbs. -/
def IBV_QPT_RC : Nat := 2
/-- Event code `RDMA_CM_EVENT_CONNECT_REQUEST` of librdmacm. -/
def RDMA_CM_EVENT_CONNECT_REQUEST : Nat := 4
/-- Event code `RDMA_CM_EVENT_ESTABLISHED` of librdmacm. -/
def RDMA_CM_EVENT_ESTABLISHED : Nat := 9
/-- Event code `RDMA_CM_EVENT_DISCONNECTED` of librdmacm. -/
def RDMA_CM_EVENT_DISCONNECTED : Nat := 10
/-- Event code `RDMA_CM_EVENT_CONNECT_ERROR` of librdmacm. -/
def RDMA_CM_EVENT_CONNECT_ERROR : Nat := 6
/-- Event code `RDMA_CM_EVENT_DEVICE_REMOVAL` of librdmacm. -/
def RDMA_CM_EVENT_DEVICE_REMOVAL : Nat := 11

/-! ## Data model -/

/-- The `struct ibv_mr` of libibverbs: a registered memory region. -/
structure ibv_mr where
  context : Nat
  pd : Option Nat
  addr : Nat
  length : Nat
  handle : Nat
  lkey : Nat
  rkey : Nat
  deriving DecidableEq, Repr

/-- Discriminant of `struct msg`. -/
inductive msg_type where
  | HELLO
  | FRAME
  deriving DecidableEq, Repr

/-- The union `data` of `struct msg`: a 64-bit offset or a memory-region descriptor. -/
inductive msg_data where
  | offset (o : Nat)
  | mr (m : ibv_mr)
  deriving DecidableEq, Repr

/-- The wire message `struct msg`. -/
structure msg where
  type : msg_type
  data : msg_data
  deriving DecidableEq, Repr

/-- Reading the member `data.offset` of the union.  When the descriptor member is the one
stored, the read sees the first eight bytes of the descriptor, its `context` pointer. -/
def msg_data.as_offset : msg_data → Nat
  | .offset o => o
  | .mr m => m.context % 2 ^ 64

/-- The `struct memory_region_struct` of `server.c`: three pointers.  `memory_region_mr` holds
the registration pointed to, when the pointer is set. -/
structure memory_region_struct where
  memory_region : Option Nat
  memory_region_mr : Option ibv_mr
  mapping_table_start : Option Nat
  deriving DecidableEq, Repr

/-- The region block as the connect-request handler leaves it: allocated (with the size of a
pointer only) and never filled, `build_memory_map` being commented out. -/
def unfilled_region : memory_region_struct :=
  { memory_region := none, memory_region_mr := none, mapping_table_start := none }

/-- A block returned by `malloc`: base address, size in bytes, contents (`none` is a byte never
written) and the offsets stored to so far, oldest first. -/
structure Block where
  base : Nat
  size : Nat
  bytes : Nat → Option Nat
  written : List Nat

/-- A fresh block of `size` bytes at `base`, as `malloc` returns it. -/
def malloc (base size : Nat) : Block :=
  { base := base, size := size, bytes := fun _ => none, written := [] }

/-- Store of one byte at offset `off` of a block; `none` when the offset is outside the block. -/
def store_byte (b : Block) (off v : Nat) : Option Block :=
  if off < b.size then
    some { b with bytes := fun o => if o = off then some v else b.bytes o,
                  written := b.written ++ [off] }
  else none

/-- Stores the bytes `src` and then the terminating NUL from offset `off` on. -/
def store_string (b : Block) (off : Nat) : List Nat → Option Block
  | [] => store_byte b off 0
  | c :: cs => (store_byte b off c).bind (fun b1 => store_string b1 (off + 1) cs)

/-- The libc `strcpy` of a string literal into a block at offset `off`. -/
def strcpy (b : Block) (off : Nat) (src : String) : Option Block :=
  store_string b off (src.toList.map Char.toNat)

/-! ## `build_memory_map` -/

/-- Largest value of a C `int`. -/
def INT_MAX : Nat := 2147483647

/-- Result of a C `int` operation on operands that are not negative, `x` being its
mathematical value: `x` when it fits in an `int`, no result on overflow (signed overflow is
undefined in C; where the compiler wraps, the value differs from `x` all the same). -/
def int_result (x : Nat) : Option Nat :=
  if x ≤ INT_MAX then some x else none

/-- The expression `8 * (DATA_SIZE / BLOCK_SIZE)` in `int` arithmetic; no result when
`BLOCK_SIZE` is zero. -/
def mapping_table_size (cfg : Config) : Option Nat :=
  if cfg.BLOCK_SIZE = 0 then none
  else int_result (8 * (cfg.DATA_SIZE / cfg.BLOCK_SIZE))

/-- The expression `DATA_SIZE + (8 * (DATA_SIZE / BLOCK_SIZE))` in `int` arithmetic: the byte
length passed to `malloc` and to the registration in `build_memory_map`. -/
def region_size (cfg : Config) : Option Nat :=
  (mapping_table_size cfg).bind (fun table => int_result (cfg.DATA_SIZE + table))

/-- Result of `build_memory_map`: the filled-in `conn` and the buffer it points to. -/
structure RegionBuild where
  conn : memory_region_struct
  block : Block

/-- The `for` loop of `build_memory_map`, with `int i` running from 0 to `n - 1`:
`strcpy(conn->memory_region + (i * BLOCK_SIZE) + (8 * (DATA_SIZE / BLOCK_SIZE)), "A")`.
`table` is the value of `8 * (DATA_SIZE / BLOCK_SIZE)`; the product `i * BLOCK_SIZE` is an
`int` operation, the two additions are pointer arithmetic. -/
def build_memory_map_loop (cfg : Config) (table n : Nat) (b : Block) : Option Block :=
  (List.range n).foldlM
    (fun blk i =>
      (int_result (i * cfg.BLOCK_SIZE)).bind (fun off => strcpy blk (off + table) "A"))
    b

/-- The function `build_memory_map`.  `reg` is the registration helper `rdma_buffer_register`
of `common.h`, `pd` the protection domain `client_res->pd`, `base` the address `malloc`
returns.  There is no result when `BLOCK_SIZE` is zero, when the `int` arithmetic overflows or
when a store leaves the buffer. -/
def build_memory_map (cfg : Config) (reg : Option Nat → Nat → Nat → Nat → ibv_mr)
    (pd : Option Nat) (base : Nat) : Option RegionBuild :=
  (region_size cfg).bind (fun size =>
    (mapping_table_size cfg).bind (fun table =>
      (build_memory_map_loop cfg table (cfg.DATA_SIZE / cfg.BLOCK_SIZE) (malloc base size)).map
        (fun blk =>
          { conn :=
              { memory_region := some base,
                memory_region_mr :=
                  some (reg pd base size
                    (IBV_ACCESS_LOCAL_WRITE ||| IBV_ACCESS_REMOTE_READ |||
                      IBV_ACCESS_REMOTE_WRITE)),
                mapping_table_start := some base },
            block := blk })))

/-- The message built by `post_send_memory_map` (lines 182 to 185): type `FRAME`, the
descriptor copied from the registration `mr` that `_region->memory_region_mr` points to, then
its `addr` overwritten with the pointer value `_region->memory_region`. -/
def post_send_memory_map_msg (mr : ibv_mr) (memory_region : Nat) : msg :=
  { type := msg_type.FRAME,
    data := msg_data.mr { mr with addr := memory_region } }

/-- The message built by `post_send_hello` from the message in `client_buff`: type `HELLO`,
offset `client_buff.message->data.offset + 1` in 64-bit unsigned arithmetic. -/
def post_send_hello_msg (client : msg) : msg :=
  { type := msg_type.HELLO,
    data := msg_data.offset ((client.data.as_offset + 1) % 2 ^ 64) }

/-! ## Transport structures and the call trace -/

/-- The `struct per_client_resources` of `server.c`. -/
structure per_client_resources where
  pd : Option Nat
  cq : Option Nat
  completion_channel : Option Nat
  qp : Option Nat
  client_id : Option Nat
  deriving DecidableEq, Repr

/-- The `struct ibv_sge` of libibverbs. -/
structure ibv_sge where
  addr : Nat
  length : Nat
  lkey : Nat
  deriving DecidableEq, Repr

/-- The fields of `struct ibv_recv_wr` that are not zero after `post_recv_hello` fills it;
`sg_list` holds the entry pointed to. -/
structure ibv_recv_wr where
  sg_list : ibv_sge
  num_sge : Nat
  deriving DecidableEq, Repr

/-- The fields of `struct ibv_send_wr` that are not zero after the send functions fill it. -/
structure ibv_send_wr where
  sg_list : ibv_sge
  num_sge : Nat
  opcode : Nat
  send_flags : Nat
  deriving DecidableEq, Repr

/-- The fields of `struct ibv_qp_init_attr` set by `setup_client_resources`. -/
structure ibv_qp_init_attr where
  max_recv_sge : Nat
  max_recv_wr : Nat
  max_send_sge : Nat
  max_send_wr : Nat
  qp_type : Nat
  recv_cq : Option Nat
  send_cq : Option Nat
  deriving DecidableEq, Repr

/-- A message buffer on the heap: its address and its contents. -/
structure MsgCell where
  addr : Nat
  val : msg
  deriving DecidableEq, Repr

/-- The `struct exchange_buffer` of `common.h`: the message pointer and its registration. -/
structure exchange_buffer where
  message : Option MsgCell
  buffer : Option ibv_mr
  deriving DecidableEq, Repr

/-- A connection-manager event: its type code and its connection identifier. -/
structure rdma_cm_event where
  event : Nat
  id : Option Nat
  deriving DecidableEq, Repr

/-- Argument of the two `free` calls of the teardown. -/
inductive FreeTarget where
  | conn
  | client_res
  deriving DecidableEq, Repr

/-- One call made by the server into the transport library (or `free`), with the arguments the
code passes.  `ibv_post_send` also records the contents of the buffer being sent. -/
inductive Call where
  | rdma_ack_cm_event
  | ibv_alloc_pd (id : Nat)
  | ibv_create_comp_channel (id : Nat)
  | ibv_create_cq (id : Nat) (cqe : Nat) (channel : Option Nat)
  | ibv_req_notify_cq (cq : Option Nat)
  | rdma_create_qp (id : Option Nat) (pd : Option Nat) (attr : ibv_qp_init_attr)
  | rdma_buffer_register (pd : Option Nat) (addr : Nat) (length : Nat) (access : Nat)
  | ibv_post_recv (qp : Option Nat) (wr : ibv_recv_wr)
  | ibv_post_send (qp : Option Nat) (wr : ibv_send_wr) (payload : msg)
  | rdma_accept (id : Option Nat) (initiator_depth : Nat) (responder_resources : Nat)
  | rdma_get_peer_addr (id : Option Nat)
  | process_work_completion_events (channel : Option Nat) (num_wc : Nat)
  | rdma_destroy_qp (id : Option Nat)
  | ibv_destroy_cq (cq : Option Nat)
  | ibv_destroy_comp_channel (channel : Option Nat)
  | rdma_destroy_id (id : Option Nat)
  | rdma_destroy_event_channel (channel : Option Nat)
  | free (target : FreeTarget)
  deriving DecidableEq, Repr

/-- Direction of a posted work request. -/
inductive Dir where
  | recv
  | send
  deriving DecidableEq, Repr

/-- Effect of one call on the queue of posted, not yet completed work requests (oldest first):
a post appends, a completion wait for `n` completions retires the `n` oldest. -/
def pending_step (q : List Dir) : Call → List Dir
  | .ibv_post_recv _ _ => q ++ [Dir.recv]
  | .ibv_post_send _ _ _ => q ++ [Dir.send]
  | .process_work_completion_events _ n => q.drop n
  | _ => q

/-- The work requests outstanding after a trace. -/
def pending (t : List Call) : List Dir :=
  t.foldl pending_step []

/-- Answers of the environment: `heap k` is the address returned by the `k`-th `malloc`,
`uninit_msg` the contents of a freshly allocated message, `unset_addr` the value read from an
unset pointer field that is copied and not dereferenced, `new_*` the handles the transport
returns, `reg` the registration helper `rdma_buffer_register` of `common.h` (protection
domain, address, length, access), `*_ret` the results of the destroy calls. -/
structure Env where
  heap : Nat → Nat
  uninit_msg : msg
  unset_addr : Nat
  new_pd : Nat
  new_comp_channel : Nat
  new_cq : Nat
  new_qp : Nat
  reg : Option Nat → Nat → Nat → Nat → ibv_mr
  destroy_cq_ret : Int
  destroy_comp_channel_ret : Int
  destroy_server_id_ret : Int
  destroy_client_id_ret : Int

/-- The file-scope variables of `server.c`, the local `_region` of `wait_for_event` (field
`region`), the number of `malloc` calls so far, the messages the client has yet to send, the
call trace and the error log. -/
structure ServerState where
  cm_server_id : Option Nat
  cm_event_channel : Option Nat
  client_res : Option per_client_resources
  client_buff : exchange_buffer
  server_buff : exchange_buffer
  region : Option memory_region_struct
  nalloc : Nat
  inbox : List msg
  trace : List Call
  log : List String

/-- Why a run stops without returning: line `line` of `server.c` dereferences a `NULL` or
unset pointer, or a completion wait never returns. -/
inductive Stop where
  | segfault (line : Nat)
  | blocked
  deriving DecidableEq, Repr

/-- A run that stopped: the reason and the state reached. -/
structure Halt where
  why : Stop
  state : ServerState

/-- State after `start_rdma_server`: event channel and listening identifier exist, nothing
else does. -/
def start_state (server_id event_channel : Nat) (inbox : List msg) : ServerState :=
  { cm_server_id := some server_id,
    cm_event_channel := some event_channel,
    client_res := none,
    client_buff := { message := none, buffer := none },
    server_buff := { message := none, buffer := none },
    region := none,
    nalloc := 0,
    inbox := inbox,
    trace := [],
    log := [] }

/-- Appends one library call to the trace. -/
def ServerState.call (s : ServerState) (c : Call) : ServerState :=
  { s with trace := s.trace ++ [c] }

/-- Appends one `error(...)` line to the log. -/
def ServerState.error (s : ServerState) (line : String) : ServerState :=
  { s with log := s.log ++ [line] }

/-! ## The functions of `server.c` -/

def setup_client_resources (cfg : Config) (env : Env) (cm_client_id : Option Nat)
    (s : ServerState) : ServerState :=
  let s1 : ServerState :=
    { s with
      client_res :=
        some { pd := none, cq := none, completion_channel := none, qp := none, client_id := none },
      nalloc := s.nalloc + 1 }
  match cm_client_id with
  | none => { s1 with log := s1.log ++ ["Client id is still NULL"] }
  | some id =>
    let qp_init_attr : ibv_qp_init_attr :=
      { max_recv_sge := cfg.MAX_SGE,
        max_recv_wr := cfg.MAX_WR,
        max_send_sge := cfg.MAX_SGE,
        max_send_wr := cfg.MAX_WR,
        qp_type := IBV_QPT_RC,
        recv_cq := some env.new_cq,
        send_cq := some env.new_cq }
    { s1 with
      client_res :=
        some { pd := some env.new_pd,
               cq := some env.new_cq,
               completion_channel := some env.new_comp_channel,
               qp := some env.new_qp,
               client_id := some id },
      trace := s1.trace ++
        [Call.ibv_alloc_pd id,
         Call.ibv_create_comp_channel id,
         Call.ibv_create_cq id cfg.CQ_CAPACITY (some env.new_comp_channel),
         Call.ibv_req_notify_cq (some env.new_cq),
         Call.rdma_create_qp (some id) (some env.new_pd) qp_init_attr] }

/-- Arrival of one completion during a completion wait: a send completion changes nothing; a
receive completion needs the next message of the client, which the transport writes into
the posted buffer (the loop of `poll_for_completion_events`, line 81, then reads
`client_buff.message->type`). -/
def complete (s : ServerState) : Dir → Except Halt ServerState
  | Dir.send => .ok s
  | Dir.recv =>
    match s.inbox, s.client_buff.message with
    | [], _ => .error { why := Stop.blocked, state := s }
    | _ :: _, none => .error { why := Stop.segfault 81, state := s }
    | m :: rest, some cell =>
      .ok { s with
            inbox := rest,
            client_buff := { s.client_buff with message := some { cell with val := m } } }

/-- The function `poll_for_completion_events`: waits on the completion channel until `num_wc`
completions have been drained; they retire the oldest outstanding work requests. -/
def poll_for_completion_events (num_wc : Nat) (s : ServerState) : Except Halt ServerState :=
  match s.client_res with
  | none => .error { why := Stop.segfault 77, state := s }
  | some res =>
    if (pending s.trace).length < num_wc then .error { why := Stop.blocked, state := s }
    else
      (((pending s.trace).take num_wc).foldlM complete s).map
        (fun s1 =>
          s1.call (Call.process_work_completion_events res.completion_channel num_wc))

/-- The function `accept_conn`: accepts with `initiator_depth = 3`, `responder_resources = 3`. -/
def accept_conn (cm_client_id : Option Nat) (s : ServerState) : ServerState :=
  { s with trace := s.trace ++ [Call.rdma_accept cm_client_id 3 3] }

/-- The function `post_recv_hello`: allocates a message buffer, registers it for local write,
and posts one receive work request with one scatter-gather entry taken from the
registration.  The registration (line 105) dereferences the protection domain and the inline
`ibv_post_recv` (line 118) the queue pair: the run stops there when the resource block is
missing or the handle unset. -/
def post_recv_hello (cfg : Config) (env : Env) (s : ServerState) : Except Halt ServerState :=
  let message := env.heap s.nalloc
  let allocated : ServerState :=
    { s with
      client_buff :=
        { s.client_buff with message := some { addr := message, val := env.uninit_msg } },
      nalloc := s.nalloc + 1 }
  match s.client_res with
  | none => .error { why := Stop.segfault 105, state := allocated }
  | some res =>
    match res.pd with
    | none => .error { why := Stop.segfault 105, state := allocated }
    | some _ =>
      let buffer := env.reg res.pd message cfg.MSG_SIZE IBV_ACCESS_LOCAL_WRITE
      let client_recv_sge : ibv_sge :=
        { addr := buffer.addr, length := buffer.length, lkey := buffer.lkey }
      let client_recv_wr : ibv_recv_wr := { sg_list := client_recv_sge, num_sge := 1 }
      let registered : ServerState :=
        { s with
          client_buff :=
            { message := some { addr := message, val := env.uninit_msg },
              buffer := some buffer },
          nalloc := s.nalloc + 1,
          trace := s.trace ++
            [Call.rdma_buffer_register res.pd message cfg.MSG_SIZE IBV_ACCESS_LOCAL_WRITE] }
      match res.qp with
      | none => .error { why := Stop.segfault 118, state := registered }
      | some _ =>
        .ok { s with
              client_buff :=
                { message := some { addr := message, val := env.uninit_msg },
                  buffer := some buffer },
              nalloc := s.nalloc + 1,
              trace := s.trace ++
                [Call.rdma_buffer_register res.pd message cfg.MSG_SIZE IBV_ACCESS_LOCAL_WRITE,
                 Call.ibv_post_recv res.qp client_recv_wr] }

/-- The function `post_send_hello`: allocates the reply, fills it from `client_buff`,
registers it and posts one signalled send. -/
def post_send_hello (cfg : Config) (env : Env) (s : ServerState) : Except Halt ServerState :=
  let message := env.heap s.nalloc
  let allocated : ServerState :=
    { s with
      server_buff :=
        { s.server_buff with
          message :=
            some { addr := message, val := { env.uninit_msg with type := msg_type.HELLO } } },
      nalloc := s.nalloc + 1 }
  match s.client_buff.message, s.client_res with
  | none, _ => .error { why := Stop.segfault 128, state := allocated }
  | some client, none =>
    .error
      { why := Stop.segfault 130,
        state :=
          { allocated with
            server_buff :=
              { s.server_buff with
                message := some { addr := message, val := post_send_hello_msg client.val } } } }
  | some client, some res =>
    let reply := post_send_hello_msg client.val
    let access := IBV_ACCESS_LOCAL_WRITE ||| IBV_ACCESS_REMOTE_READ ||| IBV_ACCESS_REMOTE_WRITE
    let buffer := env.reg res.pd message cfg.MSG_SIZE access
    let server_send_sge : ibv_sge :=
      { addr := message, length := cfg.MSG_SIZE, lkey := buffer.lkey }
    let server_send_wr : ibv_send_wr :=
      { sg_list := server_send_sge, num_sge := 1, opcode := IBV_WR_SEND,
        send_flags := IBV_SEND_SIGNALED }
    .ok { s with
          server_buff := { message := some { addr := message, val := reply }, buffer := some buffer },
          nalloc := s.nalloc + 1,
          trace := s.trace ++
            [Call.rdma_buffer_register res.pd message cfg.MSG_SIZE access,
             Call.ibv_post_send res.qp server_send_wr reply] }

/-- The function `post_send_memory_map`: allocates the descriptor message, fills it from
`_region`, registers it and posts one signalled send.  The `memcpy` of line 184 reads through
`_region` and through `_region->memory_region_mr`: the run stops there when `_region` is
`NULL` or the registration pointer was never set. -/
def post_send_memory_map (cfg : Config) (env : Env) (region : Option memory_region_struct)
    (s : ServerState) : Except Halt ServerState :=
  let message := env.heap s.nalloc
  let allocated : ServerState :=
    { s with
      server_buff :=
        { s.server_buff with
          message :=
            some { addr := message, val := { env.uninit_msg with type := msg_type.FRAME } } },
      nalloc := s.nalloc + 1 }
  match region with
  | none => .error { why := Stop.segfault 184, state := allocated }
  | some r =>
    match r.memory_region_mr with
    | none => .error { why := Stop.segfault 184, state := allocated }
    | some mr =>
      let frame := post_send_memory_map_msg mr (r.memory_region.getD env.unset_addr)
      match s.client_res with
      | none =>
        .error
          { why := Stop.segfault 187,
            state :=
              { allocated with
                server_buff :=
                  { s.server_buff with message := some { addr := message, val := frame } } } }
      | some res =>
        let access :=
          IBV_ACCESS_LOCAL_WRITE ||| IBV_ACCESS_REMOTE_READ ||| IBV_ACCESS_REMOTE_WRITE
        let buffer := env.reg res.pd message cfg.MSG_SIZE access
        let server_send_sge : ibv_sge :=
          { addr := message, length := cfg.MSG_SIZE, lkey := buffer.lkey }
        let server_send_wr : ibv_send_wr :=
          { sg_list := server_send_sge, num_sge := 1, opcode := IBV_WR_SEND,
            send_flags := IBV_SEND_SIGNALED }
        .ok { s with
              server_buff :=
                { message := some { addr := message, val := frame }, buffer := some buffer },
              nalloc := s.nalloc + 1,
              trace := s.trace ++
                [Call.rdma_buffer_register res.pd message cfg.MSG_SIZE access,
                 Call.ibv_post_send res.qp server_send_wr frame] }

/-- The function `established_connection`: looks up the peer address of the client. -/
def established_connection (s : ServerState) : Except Halt ServerState :=
  match s.client_res with
  | none => .error { why := Stop.segfault 216, state := s }
  | some res => .ok { s with trace := s.trace ++ [Call.rdma_get_peer_addr res.client_id] }

/-- The function `disconnect_and_cleanup`: the teardown calls in source order, an error line
after each of the four checked destroy calls whose result is not zero, and the result `0`.
The pointer variables keep their values. -/
def disconnect_and_cleanup (env : Env) (s : ServerState) : Except Halt (Int × ServerState) :=
  match s.client_res with
  | none => .error { why := Stop.segfault 226, state := s }
  | some res =>
    let s1 := s.call (Call.rdma_destroy_qp res.client_id)
    let s2 := s1.call (Call.ibv_destroy_cq res.cq)
    let s3 :=
      if env.destroy_cq_ret ≠ 0 then s2.error "Failed to destroy completion queue cleanly"
      else s2
    let s4 := s3.call (Call.ibv_destroy_comp_channel res.completion_channel)
    let s5 :=
      if env.destroy_comp_channel_ret ≠ 0 then
        s4.error "Failed to destroy completion channel cleanly"
      else s4
    let s6 := s5.call (Call.rdma_destroy_id s.cm_server_id)
    let s7 :=
      if env.destroy_server_id_ret ≠ 0 then s6.error "Failed to destroy server id cleanly"
      else s6
    let s8 := s7.call (Call.rdma_destroy_event_channel s.cm_event_channel)
    let s9 := s8.call (Call.rdma_destroy_id res.client_id)
    let s10 :=
      if env.destroy_client_id_ret ≠ 0 then s9.error "Failed to destroy client id cleanly"
      else s9
    let s11 := s10.call (Call.free FreeTarget.conn)
    let s12 := s11.call (Call.free FreeTarget.client_res)
    .ok (0, s12)

/-- The body of the `while` loop of `wait_for_event` for one received event.  The first
component is `none` after `break` (the loop goes on) and `some v` after `return v`.

The connect-request case allocates the region block and leaves it unfilled.  The default
case formats its error line with `%s` applied to `(char *) cm_event.event`, the integer event
code taken as a string pointer (line 318): only the code 0, a `NULL` pointer, can be printed;
for every other code the run stops there, before `return -1`. -/
def handle_cm_event (cfg : Config) (env : Env) (ev : rdma_cm_event) (s : ServerState) :
    Except Halt (Option Int × ServerState) :=
  if ev.event = RDMA_CM_EVENT_CONNECT_REQUEST then do
    let s1 : ServerState :=
      { s with region := some unfilled_region, nalloc := s.nalloc + 1 }
    let s2 : ServerState := { s1 with trace := s1.trace ++ [Call.rdma_ack_cm_event] }
    let s3 := setup_client_resources cfg env ev.id s2
    let s4 ← post_recv_hello cfg env s3
    pure (none, accept_conn ev.id s4)
  else if ev.event = RDMA_CM_EVENT_ESTABLISHED then do
    let s1 : ServerState := { s with trace := s.trace ++ [Call.rdma_ack_cm_event] }
    let s2 ← established_connection s1
    let s3 ← poll_for_completion_events 1 s2
    let s4 ← post_send_hello cfg env s3
    let s5 ← poll_for_completion_events 1 s4
    let s6 ← post_recv_hello cfg env s5
    let s7 ← poll_for_completion_events 1 s6
    let s8 ← post_send_memory_map cfg env s7.region s7
    pure (none, s8)
  else if ev.event = RDMA_CM_EVENT_DISCONNECTED then do
    let s1 : ServerState := { s with trace := s.trace ++ [Call.rdma_ack_cm_event] }
    let r ← disconnect_and_cleanup env s1
    pure (none, r.2)
  else if ev.event = 0 then
    pure (some (-1), { s with log := s.log ++ ["Event not found"] })
  else
    .error { why := Stop.segfault 318, state := s }

/-- The function `wait_for_event` over the events delivered by `rdma_get_cm_event`, in order;
the list ends where `rdma_get_cm_event` fails.  The result is `some v` after `return v` in the
loop and `none` after the final `return ret`, whose `ret` is never assigned. -/
def wait_for_event (cfg : Config) (env : Env) :
    List rdma_cm_event → ServerState → Except Halt (Option Int × ServerState)
  | [], s => .ok (none, s)
  | ev :: rest, s =>
    match handle_cm_event cfg env ev s with
    | .error e => .error e
    | .ok (some v, s1) => .ok (some v, s1)
    | .ok (none, s1) => wait_for_event cfg env rest s1

/-! ## Readings of a trace -/

/-- Kinds of transport resources created for a connection. -/
inductive Resource where
  | pd
  | comp_channel
  | cq
  | qp
  | mr
  deriving DecidableEq, Repr

/-- Effect of one call on the resources alive: a creating call adds one, a destroy call
releases one of its kind. -/
def live_step (r : List Resource) : Call → List Resource
  | .ibv_alloc_pd _ => r ++ [Resource.pd]
  | .ibv_create_comp_channel _ => r ++ [Resource.comp_channel]
  | .ibv_create_cq _ _ _ => r ++ [Resource.cq]
  | .rdma_create_qp _ _ _ => r ++ [Resource.qp]
  | .rdma_buffer_register _ _ _ _ => r ++ [Resource.mr]
  | .rdma_destroy_qp _ => r.erase Resource.qp
  | .ibv_destroy_cq _ => r.erase Resource.cq
  | .ibv_destroy_comp_channel _ => r.erase Resource.comp_channel
  | _ => r

/-- The transport resources alive after a trace. -/
def live (t : List Call) : List Resource :=
  t.foldl live_step []

/-- The actions of the handshake protocol. -/
inductive Step where
  | ack
  | wait (n : Nat)
  | post_recv
  | post_send (t : msg_type)
  deriving DecidableEq, Repr

/-- The protocol action a call stands for, if any. -/
def Call.step : Call → Option Step
  | .rdma_ack_cm_event => some Step.ack
  | .process_work_completion_events _ n => some (Step.wait n)
  | .ibv_post_recv _ _ => some Step.post_recv
  | .ibv_post_send _ _ payload => some (Step.post_send payload.type)
  | _ => none

/-- The protocol actions of a trace, in order. -/
def steps (t : List Call) : List Step :=
  t.filterMap Call.step

/-- The message carried by a posted send, if the call is one. -/
def Call.payload? : Call → Option msg
  | .ibv_post_send _ _ payload => some payload
  | _ => none

/-- The state in which a run ends, whether it returned or stopped. -/
def final_state : Except Halt (Option Int × ServerState) → ServerState
  | .ok r => r.2
  | .error h => h.state

/-- Where a run stopped, if it did not return. -/
def stopped : Except Halt (Option Int × ServerState) → Option Stop
  | .ok _ => none
  | .error h => some h.why

/-- The protocol actions one event handler adds to the trace before it returns or stops. -/
def handler_steps (cfg : Config) (env : Env) (ev : rdma_cm_event) (s : ServerState) :
    List Step :=
  steps ((final_state (handle_cm_event cfg env ev s)).trace.drop s.trace.length)

/-- Whether a queue of outstanding work requests holds at most one receive and at most one
send. -/
def within_one (q : List Dir) : Bool :=
  decide (q.count Dir.recv ≤ 1) && decide (q.count Dir.send ≤ 1)

/-- Whether `within_one` holds at every point of a trace that starts with queue `q`. -/
def no_pipelining_from (q : List Dir) : List Call → Bool
  | [] => within_one q
  | c :: t => within_one q && no_pipelining_from (pending_step q c) t

/-! ## Sample inputs -/

/-- Sample constants: eight data bytes in blocks of two, messages of 56 bytes. -/
def sample_cfg : Config :=
  { DATA_SIZE := 8, BLOCK_SIZE := 2, CQ_CAPACITY := 16, MAX_SGE := 2, MAX_WR := 8,
    MSG_SIZE := 56 }

/-- Sample constants whose mapping table does not fit in an `int`: `DATA_SIZE = 2^30` in
blocks of two, so that `8 * (DATA_SIZE / BLOCK_SIZE) = 2^32`. -/
def large_cfg : Config :=
  { DATA_SIZE := 1073741824, BLOCK_SIZE := 2, CQ_CAPACITY := 16, MAX_SGE := 2, MAX_WR := 8,
    MSG_SIZE := 56 }

/-- Sample registration: the descriptor records the address and length it is given. -/
def sample_reg (pd : Option Nat) (addr length _access : Nat) : ibv_mr :=
  { context := 7, pd := pd, addr := addr, length := length, handle := 1, lkey := 2, rkey := 3 }

/-- Sample environment: blocks 64 bytes apart from address 4096, every destroy call
succeeds. -/
def sample_env : Env :=
  { heap := fun k => 4096 + 64 * k,
    uninit_msg := { type := msg_type.FRAME, data := msg_data.offset 0 },
    unset_addr := 0,
    new_pd := 11,
    new_comp_channel := 12,
    new_cq := 13,
    new_qp := 14,
    reg := sample_reg,
    destroy_cq_ret := 0,
    destroy_comp_channel_ret := 0,
    destroy_server_id_ret := 0,
    destroy_client_id_ret := 0 }

/-- Sample resources of a connected client, as `setup_client_resources` leaves them. -/
def sample_res : per_client_resources :=
  { pd := some 11, cq := some 13, completion_channel := some 12, qp := some 14,
    client_id := some 77 }

/-- Sample state in which the client message `HELLO` with offset 5 has been received. -/
def sample_received : ServerState :=
  { cm_server_id := some 1,
    cm_event_channel := some 2,
    client_res := some sample_res,
    client_buff :=
      { message := some { addr := 4224, val := { type := msg_type.HELLO, data := msg_data.offset 5 } },
        buffer := some (sample_reg (some 11) 4224 56 1) },
    server_buff := { message := none, buffer := none },
    region := some unfilled_region,
    nalloc := 3,
    inbox := [],
    trace := [],
    log := [] }

/-- Sample client message `HELLO` carrying `o`. -/
def sample_hello (o : Nat) : msg :=
  { type := msg_type.HELLO, data := msg_data.offset o }

/-- Sample state after the connect-request of client 77 has been handled from the start
state, the client being about to send the offsets 5 and 9. -/
def sample_connected : ServerState :=
  final_state
    (handle_cm_event sample_cfg sample_env
      { event := RDMA_CM_EVENT_CONNECT_REQUEST, id := some 77 }
      (start_state 1 2 [sample_hello 5, sample_hello 9]))

/-- Sample environment in which the destroy calls of the completion queue and of the server
identifier fail. -/
def sample_env_failing : Env :=
  { sample_env with destroy_cq_ret := -1, destroy_server_id_ret := -1 }

/-! ## Lemmas and theorems -/

/-! ## Lemmas on the region layout -/

theorem int_result_some (x y : Nat) (h : int_result x = some y) : y = x ∧ x ≤ INT_MAX := by
  unfold int_result at h
  split at h
  · cases h; exact ⟨rfl, by assumption⟩
  · cases h

theorem int_result_fits (x : Nat) (h : x ≤ INT_MAX) : int_result x = some x := by
  simp [int_result, h]

theorem mapping_table_size_some (cfg : Config) (table : Nat)
    (h : mapping_table_size cfg = some table) :
    table = 8 * (cfg.DATA_SIZE / cfg.BLOCK_SIZE) ∧ cfg.BLOCK_SIZE ≠ 0 := by
  unfold mapping_table_size at h
  split at h
  · cases h
  · exact ⟨(int_result_some _ _ h).1, by assumption⟩

theorem region_size_some (cfg : Config) (size : Nat) (h : region_size cfg = some size) :
    size = cfg.DATA_SIZE + 8 * (cfg.DATA_SIZE / cfg.BLOCK_SIZE) ∧
      mapping_table_size cfg = some (8 * (cfg.DATA_SIZE / cfg.BLOCK_SIZE)) := by
  unfold region_size at h
  cases ht : mapping_table_size cfg with
  | none => rw [ht] at h; cases h
  | some table =>
    rw [ht, Option.some_bind] at h
    have h1 := (mapping_table_size_some cfg table ht).1
    have h2 := (int_result_some _ _ h).1
    subst h1
    exact ⟨h2, rfl⟩

theorem region_size_fits (cfg : Config) (hB : cfg.BLOCK_SIZE ≠ 0)
    (hfit : cfg.DATA_SIZE + 8 * (cfg.DATA_SIZE / cfg.BLOCK_SIZE) ≤ INT_MAX) :
    mapping_table_size cfg = some (8 * (cfg.DATA_SIZE / cfg.BLOCK_SIZE)) ∧
      region_size cfg = some (cfg.DATA_SIZE + 8 * (cfg.DATA_SIZE / cfg.BLOCK_SIZE)) := by
  have h1 : mapping_table_size cfg = some (8 * (cfg.DATA_SIZE / cfg.BLOCK_SIZE)) := by
    simp only [mapping_table_size, hB, if_false]
    exact int_result_fits _ (by omega)
  refine ⟨h1, ?_⟩
  simp only [region_size, h1, Option.some_bind]
  exact int_result_fits _ hfit

theorem strcpy_A (b : Block) (off : Nat) (h : off + 1 < b.size) :
    strcpy b off "A" =
      some { b with
             bytes := fun o =>
               if o = off + 1 then some 0 else if o = off then some 65 else b.bytes o,
             written := b.written ++ [off, off + 1] } := by
  have h0 : off < b.size := by omega
  have hA : "A".toList.map Char.toNat = [65] := rfl
  simp [strcpy, hA, store_string, store_byte, h0, h]

theorem store_byte_size (b r : Block) (off v : Nat) (h : store_byte b off v = some r) :
    r.size = b.size ∧ r.base = b.base := by
  unfold store_byte at h
  split at h
  · cases h; exact ⟨rfl, rfl⟩
  · cases h

theorem store_string_size (src : List Nat) :
    ∀ (b r : Block) (off : Nat),
      store_string b off src = some r → r.size = b.size ∧ r.base = b.base := by
  induction src with
  | nil => intro b r off h; exact store_byte_size b r off 0 h
  | cons c cs ih =>
    intro b r off h
    simp only [store_string] at h
    cases hs : store_byte b off c with
    | none => rw [hs] at h; cases h
    | some b1 =>
      rw [hs, Option.some_bind] at h
      have h1 := store_byte_size b b1 off c hs
      have h2 := ih b1 r (off + 1) h
      exact ⟨h2.1.trans h1.1, h2.2.trans h1.2⟩

theorem build_memory_map_loop_succ (cfg : Config) (table k : Nat) (b : Block) :
    build_memory_map_loop cfg table (k + 1) b =
      (build_memory_map_loop cfg table k b).bind
        (fun blk =>
          (int_result (k * cfg.BLOCK_SIZE)).bind (fun off => strcpy blk (off + table) "A")) := by
  simp [build_memory_map_loop, List.range_succ, List.foldlM_append]

theorem build_memory_map_loop_size (cfg : Config) (table : Nat) (b : Block) (n : Nat) :
    ∀ r, build_memory_map_loop cfg table n b = some r → r.size = b.size ∧ r.base = b.base := by
  induction n with
  | zero =>
    intro r h
    simp [build_memory_map_loop] at h
    subst h; exact ⟨rfl, rfl⟩
  | succ k ih =>
    intro r h
    rw [build_memory_map_loop_succ] at h
    cases hk : build_memory_map_loop cfg table k b with
    | none => rw [hk] at h; cases h
    | some b1 =>
      rw [hk, Option.some_bind] at h
      cases hi : int_result (k * cfg.BLOCK_SIZE) with
      | none => rw [hi] at h; cases h
      | some off =>
        rw [hi, Option.some_bind] at h
        have h1 := ih b1 hk
        have h2 := store_string_size _ b1 r _ h
        exact ⟨h2.1.trans h1.1, h2.2.trans h1.2⟩

theorem build_memory_map_loop_inv (cfg : Config) (table : Nat) (b : Block)
    (hB : 2 ≤ cfg.BLOCK_SIZE) (hD : cfg.DATA_SIZE ≤ INT_MAX)
    (hsz : b.size = cfg.DATA_SIZE + table) (k : Nat)
    (hk : k ≤ cfg.DATA_SIZE / cfg.BLOCK_SIZE) :
    ∃ r, build_memory_map_loop cfg table k b = some r ∧ r.size = b.size ∧ r.base = b.base ∧
      (∀ i, i < k → r.bytes (i * cfg.BLOCK_SIZE + table) = some (Char.toNat 'A')) ∧
      (∀ o, (o < table ∨ table + k * cfg.BLOCK_SIZE ≤ o) → r.bytes o = b.bytes o) ∧
      (∀ o, o ∈ r.written → o ∈ b.written ∨ (table ≤ o ∧ o < table + k * cfg.BLOCK_SIZE)) := by
  induction k with
  | zero =>
    refine ⟨b, ?_, rfl, rfl, ?_, ?_, ?_⟩
    · simp [build_memory_map_loop]
    · intro i hi; omega
    · intro o _; rfl
    · intro o ho; exact Or.inl ho
  | succ k ih =>
    obtain ⟨r, hr, hsize, hbase, hA, hframe, hw⟩ := ih (by omega)
    have hmul : (k + 1) * cfg.BLOCK_SIZE ≤ cfg.DATA_SIZE :=
      le_trans (Nat.mul_le_mul_right _ hk) (Nat.div_mul_le_self _ _)
    have hexp : (k + 1) * cfg.BLOCK_SIZE = k * cfg.BLOCK_SIZE + cfg.BLOCK_SIZE := by ring
    have hfit : k * cfg.BLOCK_SIZE + table + 1 < r.size := by
      rw [hsize, hsz]; omega
    have hint : int_result (k * cfg.BLOCK_SIZE) = some (k * cfg.BLOCK_SIZE) :=
      int_result_fits _ (by omega)
    rw [build_memory_map_loop_succ, hr, Option.some_bind, hint, Option.some_bind,
      strcpy_A r _ hfit]
    refine ⟨_, rfl, hsize, hbase, ?_, ?_, ?_⟩
    · intro i hi
      by_cases hik2 : i = k
      · subst hik2
        simp
      · have hik3 : i * cfg.BLOCK_SIZE + cfg.BLOCK_SIZE ≤ k * cfg.BLOCK_SIZE := by
          have h3 : (i + 1) * cfg.BLOCK_SIZE ≤ k * cfg.BLOCK_SIZE :=
            Nat.mul_le_mul_right _ (by omega)
          have h4 : (i + 1) * cfg.BLOCK_SIZE = i * cfg.BLOCK_SIZE + cfg.BLOCK_SIZE := by ring
          omega
        have h1 : i * cfg.BLOCK_SIZE + table ≠ k * cfg.BLOCK_SIZE + table + 1 := by omega
        have h2 : i * cfg.BLOCK_SIZE + table ≠ k * cfg.BLOCK_SIZE + table := by omega
        simp only [h1, h2, if_false]
        exact hA i (by omega)
    · intro o ho
      have h1 : o ≠ k * cfg.BLOCK_SIZE + table + 1 := by omega
      have h2 : o ≠ k * cfg.BLOCK_SIZE + table := by omega
      simp only [h1, h2, if_false]
      exact hframe o (by omega)
    · intro o ho
      simp only [List.mem_append, List.mem_cons, List.mem_singleton, List.not_mem_nil,
        or_false] at ho
      rcases ho with ho | ho | ho
      · rcases hw o ho with h | h
        · exact Or.inl h
        · exact Or.inr ⟨h.1, by omega⟩
      · exact Or.inr ⟨by omega, by omega⟩
      · exact Or.inr ⟨by omega, by omega⟩

/-! ## Results of the functions on states that allow them -/

theorem post_send_hello_ok (cfg : Config) (env : Env) (s : ServerState)
    (res : per_client_resources) (client : MsgCell) (hres : s.client_res = some res)
    (hmsg : s.client_buff.message = some client) :
    post_send_hello cfg env s =
      .ok { s with
            server_buff :=
              { message := some { addr := env.heap s.nalloc, val := post_send_hello_msg client.val },
                buffer := some (env.reg res.pd (env.heap s.nalloc) cfg.MSG_SIZE
                  (IBV_ACCESS_LOCAL_WRITE ||| IBV_ACCESS_REMOTE_READ ||| IBV_ACCESS_REMOTE_WRITE)) },
            nalloc := s.nalloc + 1,
            trace := s.trace ++
              [Call.rdma_buffer_register res.pd (env.heap s.nalloc) cfg.MSG_SIZE
                 (IBV_ACCESS_LOCAL_WRITE ||| IBV_ACCESS_REMOTE_READ ||| IBV_ACCESS_REMOTE_WRITE),
               Call.ibv_post_send res.qp
                 { sg_list :=
                     { addr := env.heap s.nalloc, length := cfg.MSG_SIZE,
                       lkey := (env.reg res.pd (env.heap s.nalloc) cfg.MSG_SIZE
                         (IBV_ACCESS_LOCAL_WRITE ||| IBV_ACCESS_REMOTE_READ |||
                           IBV_ACCESS_REMOTE_WRITE)).lkey },
                   num_sge := 1, opcode := IBV_WR_SEND, send_flags := IBV_SEND_SIGNALED }
                 (post_send_hello_msg client.val)] } := by
  obtain ⟨_, _, _, ⟨_, _⟩, _, _, _, _, _, _⟩ := s
  cases hres; cases hmsg; rfl

theorem post_send_memory_map_ok (cfg : Config) (env : Env) (s : ServerState)
    (res : per_client_resources) (r : memory_region_struct) (mr : ibv_mr) (a : Nat)
    (hres : s.client_res = some res) (hmr : r.memory_region_mr = some mr)
    (ha : r.memory_region = some a) :
    post_send_memory_map cfg env (some r) s =
      .ok { s with
            server_buff :=
              { message := some { addr := env.heap s.nalloc, val := post_send_memory_map_msg mr a },
                buffer := some (env.reg res.pd (env.heap s.nalloc) cfg.MSG_SIZE
                  (IBV_ACCESS_LOCAL_WRITE ||| IBV_ACCESS_REMOTE_READ ||| IBV_ACCESS_REMOTE_WRITE)) },
            nalloc := s.nalloc + 1,
            trace := s.trace ++
              [Call.rdma_buffer_register res.pd (env.heap s.nalloc) cfg.MSG_SIZE
                 (IBV_ACCESS_LOCAL_WRITE ||| IBV_ACCESS_REMOTE_READ ||| IBV_ACCESS_REMOTE_WRITE),
               Call.ibv_post_send res.qp
                 { sg_list :=
                     { addr := env.heap s.nalloc, length := cfg.MSG_SIZE,
                       lkey := (env.reg res.pd (env.heap s.nalloc) cfg.MSG_SIZE
                         (IBV_ACCESS_LOCAL_WRITE ||| IBV_ACCESS_REMOTE_READ |||
                           IBV_ACCESS_REMOTE_WRITE)).lkey },
                   num_sge := 1, opcode := IBV_WR_SEND, send_flags := IBV_SEND_SIGNALED }
                 (post_send_memory_map_msg mr a)] } := by
  obtain ⟨_, _, _⟩ := r
  cases s; cases hres; cases hmr; cases ha; rfl

/-! ## The memory region -/

/-- C10 (as amended). Region layout of `build_memory_map` for every positive `DATA_SIZE` and
every `BLOCK_SIZE >= 2` such that `DATA_SIZE + 8 * (DATA_SIZE / BLOCK_SIZE)` fits in an `int`,
with `T = 8 * (DATA_SIZE / BLOCK_SIZE)`: the call returns; the buffer has exactly
`DATA_SIZE + T` bytes; for every block index `i < DATA_SIZE / BLOCK_SIZE` the byte at offset
`T + i * BLOCK_SIZE` is the sentinel `A`; every offset written lies in
`[T, T + DATA_SIZE)`, so no store passes the end of the buffer and the mapping-table prefix
`[0, T)` is still as `malloc` returned it; `mapping_table_start` and `memory_region` equal the
base address of the buffer. -/
theorem build_memory_map_layout (cfg : Config) (reg : Option Nat → Nat → Nat → Nat → ibv_mr)
    (pd : Option Nat) (base : Nat) (hD : 0 < cfg.DATA_SIZE) (hB : 2 ≤ cfg.BLOCK_SIZE)
    (hfit : cfg.DATA_SIZE + 8 * (cfg.DATA_SIZE / cfg.BLOCK_SIZE) ≤ INT_MAX) :
    ∃ r, build_memory_map cfg reg pd base = some r ∧
      r.block.base = base ∧
      r.block.size = cfg.DATA_SIZE + 8 * (cfg.DATA_SIZE / cfg.BLOCK_SIZE) ∧
      (∀ i, i < cfg.DATA_SIZE / cfg.BLOCK_SIZE →
        r.block.bytes (8 * (cfg.DATA_SIZE / cfg.BLOCK_SIZE) + i * cfg.BLOCK_SIZE)
          = some (Char.toNat 'A')) ∧
      (∀ o, o ∈ r.block.written →
        8 * (cfg.DATA_SIZE / cfg.BLOCK_SIZE) ≤ o ∧
          o < 8 * (cfg.DATA_SIZE / cfg.BLOCK_SIZE) + cfg.DATA_SIZE) ∧
      (∀ o, o ∈ r.block.written → o < r.block.size) ∧
      (∀ o, o < 8 * (cfg.DATA_SIZE / cfg.BLOCK_SIZE) → r.block.bytes o = none) ∧
      r.conn.mapping_table_start = some r.block.base ∧
      r.conn.memory_region = some r.block.base := by
  have _ := hD
  have hne : cfg.BLOCK_SIZE ≠ 0 := by omega
  obtain ⟨htable, hsizeeq⟩ := region_size_fits cfg hne hfit
  obtain ⟨blk, hblk, hsize, hbase, hA, hframe, hw⟩ :=
    build_memory_map_loop_inv cfg (8 * (cfg.DATA_SIZE / cfg.BLOCK_SIZE))
      (malloc base (cfg.DATA_SIZE + 8 * (cfg.DATA_SIZE / cfg.BLOCK_SIZE))) hB (by omega) rfl
      (cfg.DATA_SIZE / cfg.BLOCK_SIZE) (le_refl _)
  have hmul : cfg.DATA_SIZE / cfg.BLOCK_SIZE * cfg.BLOCK_SIZE ≤ cfg.DATA_SIZE :=
    Nat.div_mul_le_self _ _
  have hrange : ∀ o, o ∈ blk.written →
      8 * (cfg.DATA_SIZE / cfg.BLOCK_SIZE) ≤ o ∧
        o < 8 * (cfg.DATA_SIZE / cfg.BLOCK_SIZE) + cfg.DATA_SIZE := by
    intro o ho
    rcases hw o ho with h | h
    · simp [malloc] at h
    · exact ⟨h.1, by omega⟩
  have hsz : blk.size = cfg.DATA_SIZE + 8 * (cfg.DATA_SIZE / cfg.BLOCK_SIZE) := by
    rw [hsize]; rfl
  have hb : blk.base = base := hbase
  refine ⟨_, by simp only [build_memory_map, hsizeeq, htable, Option.some_bind, hblk,
      Option.map]; rfl, ?_, ?_, ?_, ?_, ?_, ?_, ?_, ?_⟩
  · exact hb
  · exact hsz
  · intro i hi
    have h := hA i hi
    rw [Nat.add_comm] at h
    exact h
  · exact hrange
  · intro o ho
    have := hrange o ho
    show o < blk.size
    omega
  · intro o ho
    show blk.bytes o = none
    rw [hframe o (Or.inl ho)]
    rfl
  · show some base = some blk.base
    rw [hb]
  · show some base = some blk.base
    rw [hb]

/-- Witness of C10 on the sample constants (eight data bytes, blocks of two). -/
theorem build_memory_map_layout_witness :
    0 < sample_cfg.DATA_SIZE ∧ 2 ≤ sample_cfg.BLOCK_SIZE ∧
    sample_cfg.DATA_SIZE + 8 * (sample_cfg.DATA_SIZE / sample_cfg.BLOCK_SIZE) ≤ INT_MAX ∧
    ∃ r, build_memory_map sample_cfg sample_reg (some 11) 4096 = some r ∧
      r.block.base = 4096 ∧
      r.block.size = sample_cfg.DATA_SIZE + 8 * (sample_cfg.DATA_SIZE / sample_cfg.BLOCK_SIZE) ∧
      (∀ i, i < sample_cfg.DATA_SIZE / sample_cfg.BLOCK_SIZE →
        r.block.bytes (8 * (sample_cfg.DATA_SIZE / sample_cfg.BLOCK_SIZE) + i * sample_cfg.BLOCK_SIZE)
          = some (Char.toNat 'A')) ∧
      (∀ o, o ∈ r.block.written →
        8 * (sample_cfg.DATA_SIZE / sample_cfg.BLOCK_SIZE) ≤ o ∧
          o < 8 * (sample_cfg.DATA_SIZE / sample_cfg.BLOCK_SIZE) + sample_cfg.DATA_SIZE) ∧
      (∀ o, o ∈ r.block.written → o < r.block.size) ∧
      (∀ o, o < 8 * (sample_cfg.DATA_SIZE / sample_cfg.BLOCK_SIZE) → r.block.bytes o = none) ∧
      r.conn.mapping_table_start = some r.block.base ∧
      r.conn.memory_region = some r.block.base :=
  ⟨by decide, by decide, by decide,
    build_memory_map_layout sample_cfg sample_reg (some 11) 4096 (by decide) (by decide)
      (by decide)⟩

/-- Counterexample to C10 as stated: with `DATA_SIZE = 2^30` and `BLOCK_SIZE = 2`, both
positive and `BLOCK_SIZE >= 2`, the table size `8 * (DATA_SIZE / BLOCK_SIZE) = 2^32` does not
fit in an `int`: the `int` expression has no result, and `build_memory_map` yields no buffer
of `DATA_SIZE + 8 * (DATA_SIZE / BLOCK_SIZE)` bytes. -/
theorem build_memory_map_int_overflow :
    0 < large_cfg.DATA_SIZE ∧ 2 ≤ large_cfg.BLOCK_SIZE ∧
    INT_MAX < 8 * (large_cfg.DATA_SIZE / large_cfg.BLOCK_SIZE) ∧
    mapping_table_size large_cfg = none ∧
    ¬ ∃ r, build_memory_map large_cfg sample_reg (some 11) 4096 = some r ∧
      r.block.size = large_cfg.DATA_SIZE + 8 * (large_cfg.DATA_SIZE / large_cfg.BLOCK_SIZE) := by
  have h : mapping_table_size large_cfg = none := by decide
  refine ⟨by decide, by decide, by decide, h, ?_⟩
  rintro ⟨r, hr, _⟩
  simp [build_memory_map, region_size, h] at hr

/-- C4. For every region `r` produced by `build_memory_map` (buffer at base address `base`,
registered by a helper that records the length it is given), `post_send_memory_map` on `r`
returns, and the message it stores in `server_buff` and posts has type `FRAME`, descriptor
length `DATA_SIZE + 8 * (DATA_SIZE / BLOCK_SIZE)` and descriptor address `base`; the byte range
`[addr, addr + length)` of the descriptor is exactly the allocated buffer. -/
theorem post_send_memory_map_descriptor (cfg : Config) (env : Env) (s : ServerState)
    (res : per_client_resources) (pd : Option Nat) (base : Nat) (r : RegionBuild)
    (hreg : ∀ p a l acc, (env.reg p a l acc).length = l)
    (hres : s.client_res = some res)
    (hr : build_memory_map cfg env.reg pd base = some r) :
    ∃ s1 d, post_send_memory_map cfg env (some r.conn) s = .ok s1 ∧
      s1.server_buff.message =
        some { addr := env.heap s.nalloc, val := { type := msg_type.FRAME, data := msg_data.mr d } } ∧
      steps s1.trace = steps s.trace ++ [Step.post_send msg_type.FRAME] ∧
      s1.trace.getLast?.bind Call.payload? =
        some { type := msg_type.FRAME, data := msg_data.mr d } ∧
      d.length = cfg.DATA_SIZE + 8 * (cfg.DATA_SIZE / cfg.BLOCK_SIZE) ∧
      d.addr = base ∧
      r.block.base = base ∧
      r.block.size = cfg.DATA_SIZE + 8 * (cfg.DATA_SIZE / cfg.BLOCK_SIZE) ∧
      (∀ x, (d.addr ≤ x ∧ x < d.addr + d.length) ↔
        (r.block.base ≤ x ∧ x < r.block.base + r.block.size)) := by
  unfold build_memory_map at hr
  cases hsz : region_size cfg with
  | none => rw [hsz] at hr; cases hr
  | some size =>
    obtain ⟨hsize_eq, htable⟩ := region_size_some cfg size hsz
    rw [hsz, Option.some_bind, htable, Option.some_bind] at hr
    cases hl : build_memory_map_loop cfg (8 * (cfg.DATA_SIZE / cfg.BLOCK_SIZE))
        (cfg.DATA_SIZE / cfg.BLOCK_SIZE) (malloc base size) with
    | none => rw [hl] at hr; cases hr
    | some blk =>
      rw [hl] at hr
      simp only [Option.map, Option.some.injEq] at hr
      have hb := build_memory_map_loop_size cfg _ _ _ blk hl
      subst hr
      subst hsize_eq
      have hlen : (env.reg pd base (cfg.DATA_SIZE + 8 * (cfg.DATA_SIZE / cfg.BLOCK_SIZE))
          (IBV_ACCESS_LOCAL_WRITE ||| IBV_ACCESS_REMOTE_READ ||| IBV_ACCESS_REMOTE_WRITE)).length
            = cfg.DATA_SIZE + 8 * (cfg.DATA_SIZE / cfg.BLOCK_SIZE) := by
        rw [hreg]
      have hsize : blk.size = cfg.DATA_SIZE + 8 * (cfg.DATA_SIZE / cfg.BLOCK_SIZE) := hb.1
      have hbase : blk.base = base := hb.2
      refine ⟨_, { env.reg pd base (cfg.DATA_SIZE + 8 * (cfg.DATA_SIZE / cfg.BLOCK_SIZE))
          (IBV_ACCESS_LOCAL_WRITE ||| IBV_ACCESS_REMOTE_READ ||| IBV_ACCESS_REMOTE_WRITE) with
          addr := base }, post_send_memory_map_ok cfg env s res _ _ base hres rfl rfl, rfl, ?_,
          ?_, hlen, rfl, hbase, hsize, ?_⟩
      · simp [steps, Call.step, post_send_memory_map_msg]
      · simp [Call.payload?, post_send_memory_map_msg]
      · intro x
        show (base ≤ x ∧ x < base + _) ↔ (blk.base ≤ x ∧ x < blk.base + blk.size)
        rw [hlen, hsize, hbase]

/-- Witness of C4: the region built on the sample constants, sent from the sample state. -/
theorem post_send_memory_map_descriptor_witness :
    (∀ p a l acc, (sample_env.reg p a l acc).length = l) ∧
    sample_received.client_res = some sample_res ∧
    ∃ r, build_memory_map sample_cfg sample_env.reg (some 11) 8192 = some r ∧
    ∃ s1 d, post_send_memory_map sample_cfg sample_env (some r.conn) sample_received = .ok s1 ∧
      s1.server_buff.message =
        some { addr := sample_env.heap sample_received.nalloc,
               val := { type := msg_type.FRAME, data := msg_data.mr d } } ∧
      steps s1.trace = steps sample_received.trace ++ [Step.post_send msg_type.FRAME] ∧
      s1.trace.getLast?.bind Call.payload? =
        some { type := msg_type.FRAME, data := msg_data.mr d } ∧
      d.length = sample_cfg.DATA_SIZE + 8 * (sample_cfg.DATA_SIZE / sample_cfg.BLOCK_SIZE) ∧
      d.addr = 8192 ∧
      r.block.base = 8192 ∧
      r.block.size = sample_cfg.DATA_SIZE + 8 * (sample_cfg.DATA_SIZE / sample_cfg.BLOCK_SIZE) ∧
      (∀ x, (d.addr ≤ x ∧ x < d.addr + d.length) ↔
        (r.block.base ≤ x ∧ x < r.block.base + r.block.size)) :=
  ⟨fun _ _ _ _ => rfl, rfl, _, rfl,
    post_send_memory_map_descriptor sample_cfg sample_env sample_received sample_res (some 11)
      8192 _ (fun _ _ _ _ => rfl) rfl rfl⟩

/-! ## The liveness reply -/

/-- C1. For every offset `o` carried by the received client message, `post_send_hello`
returns, and the reply it stores in `server_buff` and posts has type `HELLO` and offset
`(o + 1) mod 2^64`; offset 5 gives 6 and offset `2^64 - 1` gives 0.  The received client
message (`client_buff`) is left as it was. -/
theorem post_send_hello_reply (cfg : Config) (env : Env) (s : ServerState)
    (res : per_client_resources) (a : Nat) (t : msg_type) (o : Nat)
    (hres : s.client_res = some res)
    (hmsg : s.client_buff.message = some { addr := a, val := { type := t, data := msg_data.offset o } }) :
    ∃ s1, post_send_hello cfg env s = .ok s1 ∧
      s1.server_buff.message =
        some { addr := env.heap s.nalloc,
               val := { type := msg_type.HELLO, data := msg_data.offset ((o + 1) % 2 ^ 64) } } ∧
      steps s1.trace = steps s.trace ++ [Step.post_send msg_type.HELLO] ∧
      s1.trace.getLast?.bind Call.payload? =
        some { type := msg_type.HELLO, data := msg_data.offset ((o + 1) % 2 ^ 64) } ∧
      s1.client_buff = s.client_buff ∧
      (o = 5 → s1.trace.getLast?.bind Call.payload? =
        some { type := msg_type.HELLO, data := msg_data.offset 6 }) ∧
      (o = 2 ^ 64 - 1 → s1.trace.getLast?.bind Call.payload? =
        some { type := msg_type.HELLO, data := msg_data.offset 0 }) := by
  refine ⟨_, post_send_hello_ok cfg env s res _ hres hmsg, rfl, ?_, ?_, rfl, ?_, ?_⟩
  · simp [steps, Call.step, post_send_hello_msg]
  · simp [Call.payload?, post_send_hello_msg, msg_data.as_offset]
  · intro h; subst h
    simp [Call.payload?, post_send_hello_msg, msg_data.as_offset]
  · intro h; subst h
    simp [Call.payload?, post_send_hello_msg, msg_data.as_offset]

/-- Witness of C1: the sample state holds the client message with offset 5. -/
theorem post_send_hello_reply_witness :
    sample_received.client_res = some sample_res ∧
    sample_received.client_buff.message =
      some { addr := 4224, val := { type := msg_type.HELLO, data := msg_data.offset 5 } } ∧
    ∃ s1, post_send_hello sample_cfg sample_env sample_received = .ok s1 ∧
      s1.server_buff.message =
        some { addr := sample_env.heap sample_received.nalloc,
               val := { type := msg_type.HELLO, data := msg_data.offset ((5 + 1) % 2 ^ 64) } } ∧
      steps s1.trace = steps sample_received.trace ++ [Step.post_send msg_type.HELLO] ∧
      s1.trace.getLast?.bind Call.payload? =
        some { type := msg_type.HELLO, data := msg_data.offset ((5 + 1) % 2 ^ 64) } ∧
      s1.client_buff = sample_received.client_buff ∧
      (5 = 5 → s1.trace.getLast?.bind Call.payload? =
        some { type := msg_type.HELLO, data := msg_data.offset 6 }) ∧
      (5 = 2 ^ 64 - 1 → s1.trace.getLast?.bind Call.payload? =
        some { type := msg_type.HELLO, data := msg_data.offset 0 }) :=
  ⟨rfl, rfl,
    post_send_hello_reply sample_cfg sample_env sample_received sample_res 4224 msg_type.HELLO 5
      rfl rfl⟩

/-! ## The established handler -/

theorem pending_append (t l : List Call) :
    pending (t ++ l) = l.foldl pending_step (pending t) := by
  simp [pending, List.foldl_append]

/-- C2 (as amended). On an established event, in a state where the connection resources exist
with protection domain and queue pair set, the pre-posted receive is the one outstanding work
request and the client sends its two messages, the handler performs exactly these protocol
actions, in this order: acknowledge the event, wait for one completion, post the liveness
reply, wait for one completion, post a receive buffer, wait for one completion, and then at
most the post of the memory-descriptor send.  No completion wait follows; when the handler
returns, it has posted the descriptor send and goes back to the loop. -/
theorem established_handler_steps (cfg : Config) (env : Env) (s : ServerState)
    (id : Option Nat) (res : per_client_resources) (pd qp : Nat)
    (cell : MsgCell) (m1 m2 : msg) (rest : List msg)
    (hres : s.client_res = some res) (hpd : res.pd = some pd) (hqp : res.qp = some qp)
    (hcell : s.client_buff.message = some cell)
    (hpend : pending s.trace = [Dir.recv])
    (hin : s.inbox = m1 :: m2 :: rest) :
    (steps (final_state (handle_cm_event cfg env
        { event := RDMA_CM_EVENT_ESTABLISHED, id := id } s)).trace =
      steps s.trace ++
        [Step.ack, Step.wait 1, Step.post_send msg_type.HELLO, Step.wait 1, Step.post_recv,
         Step.wait 1] ∨
     steps (final_state (handle_cm_event cfg env
        { event := RDMA_CM_EVENT_ESTABLISHED, id := id } s)).trace =
      steps s.trace ++
        [Step.ack, Step.wait 1, Step.post_send msg_type.HELLO, Step.wait 1, Step.post_recv,
         Step.wait 1, Step.post_send msg_type.FRAME]) ∧
    (∀ v s1, handle_cm_event cfg env { event := RDMA_CM_EVENT_ESTABLISHED, id := id } s
        = .ok (v, s1) →
      v = none ∧
      steps s1.trace = steps s.trace ++
        [Step.ack, Step.wait 1, Step.post_send msg_type.HELLO, Step.wait 1, Step.post_recv,
         Step.wait 1, Step.post_send msg_type.FRAME]) := by
  obtain ⟨sid, ch, cres, ⟨cmsg, cbuf⟩, sb, rg, n, ib, tr, lg⟩ := s
  obtain ⟨rpd, rcq, rch, rqp, rid⟩ := res
  cases hres; cases hpd; cases hqp; cases hcell; cases hin
  dsimp only at hpend
  rcases rg with _ | ⟨⟨ra, rmr, rt⟩⟩
  · simp [handle_cm_event, RDMA_CM_EVENT_ESTABLISHED, RDMA_CM_EVENT_CONNECT_REQUEST,
      established_connection, poll_for_completion_events, pending_append, pending_step, hpend,
      complete, post_send_hello, post_recv_hello, post_send_memory_map, bind, Except.bind, pure,
      Except.pure, Except.map, steps, Call.step, post_send_hello_msg, final_state,
      ServerState.call]
  · rcases rmr with _ | mr
    · simp [handle_cm_event, RDMA_CM_EVENT_ESTABLISHED, RDMA_CM_EVENT_CONNECT_REQUEST,
        established_connection, poll_for_completion_events, pending_append, pending_step, hpend,
        complete, post_send_hello, post_recv_hello, post_send_memory_map, bind, Except.bind,
        pure, Except.pure, Except.map, steps, Call.step, post_send_hello_msg, final_state,
        ServerState.call]
    · simp [handle_cm_event, RDMA_CM_EVENT_ESTABLISHED, RDMA_CM_EVENT_CONNECT_REQUEST,
        established_connection, poll_for_completion_events, pending_append, pending_step, hpend,
        complete, post_send_hello, post_recv_hello, post_send_memory_map, bind, Except.bind,
        pure, Except.pure, Except.map, steps, Call.step, post_send_hello_msg,
        post_send_memory_map_msg, final_state, ServerState.call]

/-- Witness of C2: the sample state reached by the connect-request of client 77. -/
theorem established_handler_steps_witness :
    sample_connected.client_res = some sample_res ∧
    sample_res.pd = some 11 ∧ sample_res.qp = some 14 ∧
    sample_connected.client_buff.message = some { addr := 4224, val := sample_env.uninit_msg } ∧
    pending sample_connected.trace = [Dir.recv] ∧
    sample_connected.inbox = [sample_hello 5, sample_hello 9] ∧
    (steps (final_state (handle_cm_event sample_cfg sample_env
        { event := RDMA_CM_EVENT_ESTABLISHED, id := some 77 } sample_connected)).trace =
      steps sample_connected.trace ++
        [Step.ack, Step.wait 1, Step.post_send msg_type.HELLO, Step.wait 1, Step.post_recv,
         Step.wait 1] ∨
     steps (final_state (handle_cm_event sample_cfg sample_env
        { event := RDMA_CM_EVENT_ESTABLISHED, id := some 77 } sample_connected)).trace =
      steps sample_connected.trace ++
        [Step.ack, Step.wait 1, Step.post_send msg_type.HELLO, Step.wait 1, Step.post_recv,
         Step.wait 1, Step.post_send msg_type.FRAME]) ∧
    (∀ v s1, handle_cm_event sample_cfg sample_env
        { event := RDMA_CM_EVENT_ESTABLISHED, id := some 77 } sample_connected = .ok (v, s1) →
      v = none ∧
      steps s1.trace = steps sample_connected.trace ++
        [Step.ack, Step.wait 1, Step.post_send msg_type.HELLO, Step.wait 1, Step.post_recv,
         Step.wait 1, Step.post_send msg_type.FRAME]) :=
  ⟨rfl, rfl, rfl, rfl, rfl, rfl,
    established_handler_steps sample_cfg sample_env sample_connected (some 77) sample_res 11 14
      { addr := 4224, val := sample_env.uninit_msg }
      (sample_hello 5) (sample_hello 9) [] rfl rfl rfl rfl rfl rfl⟩

/-- Counterexample to C2 as stated: on the sample connection the established handler
acknowledges, waits, posts the liveness reply, waits, posts a receive buffer and waits; it
then stops at the `memcpy` of `post_send_memory_map` (line 184), the region block never having
been filled.  The claimed sequence, with the descriptor send and a final completion wait, is
not what it does. -/
theorem established_handler_stops_at_memcpy :
    stopped (handle_cm_event sample_cfg sample_env
        { event := RDMA_CM_EVENT_ESTABLISHED, id := some 77 } sample_connected) =
      some (Stop.segfault 184) ∧
    handler_steps sample_cfg sample_env
        { event := RDMA_CM_EVENT_ESTABLISHED, id := some 77 } sample_connected =
      [Step.ack, Step.wait 1, Step.post_send msg_type.HELLO, Step.wait 1, Step.post_recv,
       Step.wait 1] ∧
    handler_steps sample_cfg sample_env
        { event := RDMA_CM_EVENT_ESTABLISHED, id := some 77 } sample_connected ≠
      [Step.ack, Step.wait 1, Step.post_send msg_type.HELLO, Step.wait 1, Step.post_recv,
       Step.wait 1, Step.post_send msg_type.FRAME, Step.wait 1] := by
  decide

/-! ## The connect-request handler -/

/-- C8. On a connect-request event with connection handle `id`, with a registration helper
that records the address and length it is given, the handler returns after exactly these
calls, in this order: acknowledge the event; create the protection domain, completion channel,
completion queue (armed) and queue pair for `id`; register one message buffer of
`sizeof(struct msg)` bytes for local write and post one receive work request whose single
scatter-gather entry covers that whole buffer; accept the connection with
`initiator_depth = 3` and `responder_resources = 3`.  The receive is posted before the
accept. -/
theorem connect_request_handler (cfg : Config) (env : Env) (s : ServerState) (id : Nat)
    (haddr : ∀ p a l acc, (env.reg p a l acc).addr = a)
    (hlen : ∀ p a l acc, (env.reg p a l acc).length = l) :
    ∃ s1, handle_cm_event cfg env { event := RDMA_CM_EVENT_CONNECT_REQUEST, id := some id } s
        = .ok (none, s1) ∧
      s1.trace = s.trace ++
        [Call.rdma_ack_cm_event,
         Call.ibv_alloc_pd id,
         Call.ibv_create_comp_channel id,
         Call.ibv_create_cq id cfg.CQ_CAPACITY (some env.new_comp_channel),
         Call.ibv_req_notify_cq (some env.new_cq),
         Call.rdma_create_qp (some id) (some env.new_pd)
           { max_recv_sge := cfg.MAX_SGE, max_recv_wr := cfg.MAX_WR,
             max_send_sge := cfg.MAX_SGE, max_send_wr := cfg.MAX_WR,
             qp_type := IBV_QPT_RC, recv_cq := some env.new_cq, send_cq := some env.new_cq },
         Call.rdma_buffer_register (some env.new_pd) (env.heap (s.nalloc + 2)) cfg.MSG_SIZE
           IBV_ACCESS_LOCAL_WRITE,
         Call.ibv_post_recv (some env.new_qp)
           { sg_list :=
               { addr := env.heap (s.nalloc + 2), length := cfg.MSG_SIZE,
                 lkey := (env.reg (some env.new_pd) (env.heap (s.nalloc + 2)) cfg.MSG_SIZE
                   IBV_ACCESS_LOCAL_WRITE).lkey },
             num_sge := 1 },
         Call.rdma_accept (some id) 3 3] := by
  simp [handle_cm_event, setup_client_resources, post_recv_hello, accept_conn, haddr, hlen,
    bind, Except.bind, pure, Except.pure]

/-- Witness of C8: the sample environment and client 77 from the start state. -/
theorem connect_request_handler_witness :
    (∀ p a l acc, (sample_env.reg p a l acc).addr = a) ∧
    (∀ p a l acc, (sample_env.reg p a l acc).length = l) ∧
    ∃ s1, handle_cm_event sample_cfg sample_env
        { event := RDMA_CM_EVENT_CONNECT_REQUEST, id := some 77 } (start_state 1 2 [])
        = .ok (none, s1) ∧
      s1.trace = (start_state 1 2 []).trace ++
        [Call.rdma_ack_cm_event,
         Call.ibv_alloc_pd 77,
         Call.ibv_create_comp_channel 77,
         Call.ibv_create_cq 77 sample_cfg.CQ_CAPACITY (some sample_env.new_comp_channel),
         Call.ibv_req_notify_cq (some sample_env.new_cq),
         Call.rdma_create_qp (some 77) (some sample_env.new_pd)
           { max_recv_sge := sample_cfg.MAX_SGE, max_recv_wr := sample_cfg.MAX_WR,
             max_send_sge := sample_cfg.MAX_SGE, max_send_wr := sample_cfg.MAX_WR,
             qp_type := IBV_QPT_RC, recv_cq := some sample_env.new_cq,
             send_cq := some sample_env.new_cq },
         Call.rdma_buffer_register (some sample_env.new_pd)
           (sample_env.heap ((start_state 1 2 []).nalloc + 2)) sample_cfg.MSG_SIZE
           IBV_ACCESS_LOCAL_WRITE,
         Call.ibv_post_recv (some sample_env.new_qp)
           { sg_list :=
               { addr := sample_env.heap ((start_state 1 2 []).nalloc + 2),
                 length := sample_cfg.MSG_SIZE,
                 lkey := (sample_env.reg (some sample_env.new_pd)
                   (sample_env.heap ((start_state 1 2 []).nalloc + 2)) sample_cfg.MSG_SIZE
                   IBV_ACCESS_LOCAL_WRITE).lkey },
             num_sge := 1 },
         Call.rdma_accept (some 77) 3 3] :=
  ⟨fun _ _ _ _ => rfl, fun _ _ _ _ => rfl,
    connect_request_handler sample_cfg sample_env (start_state 1 2 []) 77
      (fun _ _ _ _ => rfl) (fun _ _ _ _ => rfl)⟩

theorem within_one_iff (q : List Dir) :
    within_one q = true ↔ q.count Dir.recv ≤ 1 ∧ q.count Dir.send ≤ 1 := by
  simp [within_one]

theorem no_pipelining_from_sound (t : List Call) :
    ∀ (q : List Dir), no_pipelining_from q t = true →
      ∀ k, within_one ((t.take k).foldl pending_step q) = true := by
  induction t with
  | nil =>
    intro q h k
    simpa [no_pipelining_from] using h
  | cons c t ih =>
    intro q h k
    simp only [no_pipelining_from, Bool.and_eq_true] at h
    cases k with
    | zero => simpa using h.1
    | succ k => simpa using ih (pending_step q c) h.2 k

/-- C3. No pipelining: for the lifecycle of one connect-request event (with a connection
handle) followed by one established event, run from the start state with a client that sends
its two messages, at every point of the call trace of the event loop at most one posted receive
and at most one posted send is not yet completed, a completion wait for one completion retiring
the oldest outstanding work request.  The trace is that of the whole run, which ends in the
established handler at line 184. -/
theorem lifecycle_no_pipelining (cfg : Config) (env : Env) (server_id event_channel id : Nat)
    (id2 : Option Nat) (m1 m2 : msg) (rest : List msg) :
    stopped (wait_for_event cfg env
        [{ event := RDMA_CM_EVENT_CONNECT_REQUEST, id := some id },
         { event := RDMA_CM_EVENT_ESTABLISHED, id := id2 }]
        (start_state server_id event_channel (m1 :: m2 :: rest))) = some (Stop.segfault 184) ∧
    steps (final_state (wait_for_event cfg env
        [{ event := RDMA_CM_EVENT_CONNECT_REQUEST, id := some id },
         { event := RDMA_CM_EVENT_ESTABLISHED, id := id2 }]
        (start_state server_id event_channel (m1 :: m2 :: rest)))).trace =
      [Step.ack, Step.post_recv, Step.ack, Step.wait 1, Step.post_send msg_type.HELLO,
       Step.wait 1, Step.post_recv, Step.wait 1] ∧
    ∀ k,
      (pending ((final_state (wait_for_event cfg env
        [{ event := RDMA_CM_EVENT_CONNECT_REQUEST, id := some id },
         { event := RDMA_CM_EVENT_ESTABLISHED, id := id2 }]
        (start_state server_id event_channel (m1 :: m2 :: rest)))).trace.take k)).count
          Dir.recv ≤ 1 ∧
      (pending ((final_state (wait_for_event cfg env
        [{ event := RDMA_CM_EVENT_CONNECT_REQUEST, id := some id },
         { event := RDMA_CM_EVENT_ESTABLISHED, id := id2 }]
        (start_state server_id event_channel (m1 :: m2 :: rest)))).trace.take k)).count
          Dir.send ≤ 1 := by
  have hrun : stopped (wait_for_event cfg env
        [{ event := RDMA_CM_EVENT_CONNECT_REQUEST, id := some id },
         { event := RDMA_CM_EVENT_ESTABLISHED, id := id2 }]
        (start_state server_id event_channel (m1 :: m2 :: rest))) = some (Stop.segfault 184) ∧
      steps (final_state (wait_for_event cfg env
        [{ event := RDMA_CM_EVENT_CONNECT_REQUEST, id := some id },
         { event := RDMA_CM_EVENT_ESTABLISHED, id := id2 }]
        (start_state server_id event_channel (m1 :: m2 :: rest)))).trace =
      [Step.ack, Step.post_recv, Step.ack, Step.wait 1, Step.post_send msg_type.HELLO,
       Step.wait 1, Step.post_recv, Step.wait 1] ∧
      no_pipelining_from [] (final_state (wait_for_event cfg env
        [{ event := RDMA_CM_EVENT_CONNECT_REQUEST, id := some id },
         { event := RDMA_CM_EVENT_ESTABLISHED, id := id2 }]
        (start_state server_id event_channel (m1 :: m2 :: rest)))).trace = true := by
    simp [wait_for_event, start_state, handle_cm_event, RDMA_CM_EVENT_ESTABLISHED,
      RDMA_CM_EVENT_CONNECT_REQUEST, setup_client_resources, accept_conn,
      established_connection, poll_for_completion_events, pending, pending_step,
      complete, post_send_hello, post_recv_hello, post_send_memory_map, unfilled_region, bind,
      Except.bind, pure, Except.pure, Except.map, no_pipelining_from, within_one, final_state,
      stopped, ServerState.call, steps, Call.step, post_send_hello_msg]
  obtain ⟨hstop, hsteps, hcheck⟩ := hrun
  refine ⟨hstop, hsteps, fun k => ?_⟩
  exact (within_one_iff _).mp (no_pipelining_from_sound _ [] hcheck k)

/-! ## Teardown -/

/-- C5. For every combination of results of the destroy calls, `disconnect_and_cleanup`
returns 0 after exactly these calls, each once and in this order: destroy the queue pair, the
completion queue, the completion channel, the server identifier, the event channel, the client
identifier, free the region handle, free the resource block.  The results decide only which
error lines are logged; nothing else in the state changes. -/
theorem disconnect_and_cleanup_steps (env : Env) (s : ServerState)
    (res : per_client_resources) (hres : s.client_res = some res) :
    ∃ s1, disconnect_and_cleanup env s = .ok (0, s1) ∧
      s1.trace = s.trace ++
        [Call.rdma_destroy_qp res.client_id,
         Call.ibv_destroy_cq res.cq,
         Call.ibv_destroy_comp_channel res.completion_channel,
         Call.rdma_destroy_id s.cm_server_id,
         Call.rdma_destroy_event_channel s.cm_event_channel,
         Call.rdma_destroy_id res.client_id,
         Call.free FreeTarget.conn,
         Call.free FreeTarget.client_res] ∧
      s1.log = s.log ++
        ((if env.destroy_cq_ret ≠ 0 then ["Failed to destroy completion queue cleanly"]
            else []) ++
         (if env.destroy_comp_channel_ret ≠ 0 then
            ["Failed to destroy completion channel cleanly"] else []) ++
         (if env.destroy_server_id_ret ≠ 0 then ["Failed to destroy server id cleanly"]
            else []) ++
         (if env.destroy_client_id_ret ≠ 0 then ["Failed to destroy client id cleanly"]
            else [])) ∧
      { s1 with trace := s.trace, log := s.log } = s := by
  obtain ⟨_, _, _, _, _, _, _, _, _, _⟩ := s
  cases hres
  simp only [disconnect_and_cleanup, ServerState.call, ServerState.error]
  split_ifs <;> simp

/-- Witness of C5: the sample connection, torn down while two destroy calls fail. -/
theorem disconnect_and_cleanup_steps_witness :
    sample_connected.client_res = some sample_res ∧
    ∃ s1, disconnect_and_cleanup sample_env_failing sample_connected = .ok (0, s1) ∧
      s1.trace = sample_connected.trace ++
        [Call.rdma_destroy_qp sample_res.client_id,
         Call.ibv_destroy_cq sample_res.cq,
         Call.ibv_destroy_comp_channel sample_res.completion_channel,
         Call.rdma_destroy_id sample_connected.cm_server_id,
         Call.rdma_destroy_event_channel sample_connected.cm_event_channel,
         Call.rdma_destroy_id sample_res.client_id,
         Call.free FreeTarget.conn,
         Call.free FreeTarget.client_res] ∧
      s1.log = sample_connected.log ++
        ((if sample_env_failing.destroy_cq_ret ≠ 0 then
            ["Failed to destroy completion queue cleanly"] else []) ++
         (if sample_env_failing.destroy_comp_channel_ret ≠ 0 then
            ["Failed to destroy completion channel cleanly"] else []) ++
         (if sample_env_failing.destroy_server_id_ret ≠ 0 then
            ["Failed to destroy server id cleanly"] else []) ++
         (if sample_env_failing.destroy_client_id_ret ≠ 0 then
            ["Failed to destroy client id cleanly"] else [])) ∧
      { s1 with trace := sample_connected.trace, log := sample_connected.log }
        = sample_connected :=
  ⟨rfl, disconnect_and_cleanup_steps sample_env_failing sample_connected sample_res rfl⟩

/-- C6 (what the code does). A lifecycle that reaches the teardown, a connect-request followed
by the disconnected event, run from the start state: the event loop handles both events, and
the protection domain and the registration of the receive buffer are still alive afterwards,
`disconnect_and_cleanup` releasing only the queue pair, the completion queue and the
completion channel.  The lifecycle with an established event in between does not reach the
teardown: it ends in the established handler at line 184. -/
theorem lifecycle_leaves_resources (cfg : Config) (env : Env)
    (server_id event_channel id : Nat) (id2 id3 : Option Nat) (m1 m2 : msg) (rest inbox : List msg) :
    (∃ s, wait_for_event cfg env
        [{ event := RDMA_CM_EVENT_CONNECT_REQUEST, id := some id },
         { event := RDMA_CM_EVENT_DISCONNECTED, id := id3 }]
        (start_state server_id event_channel inbox) = .ok (none, s) ∧
      live s.trace = [Resource.pd, Resource.mr]) ∧
    stopped (wait_for_event cfg env
        [{ event := RDMA_CM_EVENT_CONNECT_REQUEST, id := some id },
         { event := RDMA_CM_EVENT_ESTABLISHED, id := id2 },
         { event := RDMA_CM_EVENT_DISCONNECTED, id := id3 }]
        (start_state server_id event_channel (m1 :: m2 :: rest))) = some (Stop.segfault 184) := by
  constructor
  · simp [wait_for_event, start_state, handle_cm_event, RDMA_CM_EVENT_ESTABLISHED,
      RDMA_CM_EVENT_CONNECT_REQUEST, RDMA_CM_EVENT_DISCONNECTED, setup_client_resources,
      accept_conn, post_recv_hello, disconnect_and_cleanup,
      ServerState.call, ServerState.error, bind, Except.bind, pure, Except.pure, live,
      live_step]
    split_ifs <;> simp [live, live_step]
  · simp [wait_for_event, start_state, handle_cm_event, RDMA_CM_EVENT_ESTABLISHED,
      RDMA_CM_EVENT_CONNECT_REQUEST, setup_client_resources, accept_conn,
      established_connection, poll_for_completion_events, pending, pending_step,
      complete, post_send_hello, post_recv_hello, post_send_memory_map, unfilled_region, bind,
      Except.bind, pure, Except.pure, Except.map, stopped, ServerState.call]

/-! ## Unrecognised events -/

theorem handle_cm_event_other (cfg : Config) (env : Env) (e : rdma_cm_event) (s : ServerState)
    (h1 : e.event ≠ RDMA_CM_EVENT_CONNECT_REQUEST) (h2 : e.event ≠ RDMA_CM_EVENT_ESTABLISHED)
    (h3 : e.event ≠ RDMA_CM_EVENT_DISCONNECTED) (h0 : e.event ≠ 0) :
    handle_cm_event cfg env e s = .error { why := Stop.segfault 318, state := s } := by
  simp only [handle_cm_event, h1, h2, h3, h0, if_false]

/-- C7 (what the code does). When `wait_for_event` receives a device-removal event, whose
type is none of connect-request, established, disconnected, the run stops at line 318, where
the error line is formatted with `%s` applied to the event code: `return -1` is not reached,
whatever the state and whatever events follow.  The same holds after a handled connect-request
for a connect-error event. -/
theorem wait_for_event_unrecognised_stops (cfg : Config) (env : Env) (s : ServerState)
    (id : Option Nat) (post : List rdma_cm_event) :
    wait_for_event cfg env ({ event := RDMA_CM_EVENT_DEVICE_REMOVAL, id := id } :: post) s =
      .error { why := Stop.segfault 318, state := s } ∧
    stopped (wait_for_event sample_cfg sample_env
        ([{ event := RDMA_CM_EVENT_CONNECT_REQUEST, id := some 77 },
          { event := RDMA_CM_EVENT_CONNECT_ERROR, id := some 77 }] ++ post)
        (start_state 1 2 [])) = some (Stop.segfault 318) := by
  constructor
  · have h := handle_cm_event_other cfg env
      { event := RDMA_CM_EVENT_DEVICE_REMOVAL, id := id } s
      (by simp [RDMA_CM_EVENT_DEVICE_REMOVAL, RDMA_CM_EVENT_CONNECT_REQUEST])
      (by simp [RDMA_CM_EVENT_DEVICE_REMOVAL, RDMA_CM_EVENT_ESTABLISHED])
      (by simp [RDMA_CM_EVENT_DEVICE_REMOVAL, RDMA_CM_EVENT_DISCONNECTED])
      (by simp [RDMA_CM_EVENT_DEVICE_REMOVAL])
    simp only [wait_for_event, h]
  · simp [wait_for_event, start_state, handle_cm_event, RDMA_CM_EVENT_ESTABLISHED,
      RDMA_CM_EVENT_CONNECT_REQUEST, RDMA_CM_EVENT_DISCONNECTED, RDMA_CM_EVENT_CONNECT_ERROR,
      setup_client_resources, accept_conn, post_recv_hello, sample_env, sample_reg,
      bind, Except.bind, pure, Except.pure, stopped]

end RdmaServer
